import Mathlib

/-!
Shallow embedding of the BellumBoard playlist manager
(`src/bellumboard.py`): the Track/Playlist/Library data model with its
JSON serialization, the playback state machine (shuffle queue, track
index advance), the track-reordering and removal operations, playlist
creation, URL cleaning in `_add_url_thread`, and the Spotify embed-page
fallback scrape.  Python dicts that may miss keys are modelled with
`Option` fields (`dict.get(k, d)` becomes `Option.getD`); the Python
dict of folders (insertion ordered, unique keys) is modelled as an
association list.
-/

/-- A playable item: `Track.__init__` in bellumboard.py. `start_time`
is in seconds. -/
structure Track where
  title : String
  url : String
  video_id : String
  start_time : Int
deriving DecidableEq, Repr

instance : Inhabited Track := ⟨⟨"", "", "", 0⟩⟩

/-- The JSON object a track serializes to; `video_id` and `start_time`
may be absent when reading foreign data (`data.get(...)` in
`Track.from_dict`). -/
structure TrackDict where
  title : String
  url : String
  video_id : Option String
  start_time : Option Int
deriving DecidableEq, Repr

/-- `Track.to_dict`: emits all four fields. -/
def Track.to_dict (t : Track) : TrackDict :=
  ⟨t.title, t.url, some t.video_id, some t.start_time⟩

/-- `Track.from_dict`: `title` and `url` are required keys;
`video_id` defaults to `""` and `start_time` to `0`. -/
def Track.from_dict (d : TrackDict) : Track :=
  ⟨d.title, d.url, d.video_id.getD "", d.start_time.getD 0⟩

/-- A named ordered sequence of tracks: class `Playlist`. -/
structure Playlist where
  name : String
  tracks : List Track
deriving DecidableEq, Repr

/-- `Playlist.add_track`: appends at the end. -/
def Playlist.add_track (p : Playlist) (t : Track) : Playlist :=
  ⟨p.name, p.tracks ++ [t]⟩

/-- `Playlist.remove_track(index)`: pops the element at `index` when
`0 <= index < len(tracks)`, otherwise does nothing.  `index` is an
`Int` because Python passes a possibly negative int. -/
def Playlist.remove_track (p : Playlist) (index : Int) : Playlist :=
  if 0 ≤ index ∧ index < p.tracks.length then
    ⟨p.name, p.tracks.eraseIdx index.toNat⟩
  else p

/-- The JSON object a playlist serializes to; `tracks` may be absent
(`data.get('tracks', [])`). -/
structure PlaylistDict where
  name : String
  tracks : Option (List TrackDict)
deriving DecidableEq, Repr

/-- `Playlist.to_dict`. -/
def Playlist.to_dict (p : Playlist) : PlaylistDict :=
  ⟨p.name, some (p.tracks.map Track.to_dict)⟩

/-- `Playlist.from_dict`. -/
def Playlist.from_dict (d : PlaylistDict) : Playlist :=
  ⟨d.name, (d.tracks.getD []).map Track.from_dict⟩

/-- The library: the Python dict `self.folders` mapping folder name to
its list of playlists, as an insertion-ordered association list. -/
def Library := List (String × List Playlist)

/-- `save_data`: serializes every playlist of every folder
(`{folder: [p.to_dict() for p in playlists] ...}`). -/
def save_data (folders : List (String × List Playlist)) :
    List (String × List PlaylistDict) :=
  folders.map fun e => (e.1, e.2.map Playlist.to_dict)

/-- `load_data` (success path): deserializes every playlist of every
folder (`{folder: [Playlist.from_dict(p) for p in playlists] ...}`). -/
def load_data (data : List (String × List PlaylistDict)) :
    List (String × List Playlist) :=
  data.map fun e => (e.1, e.2.map Playlist.from_dict)

theorem track_to_from_dict (t : Track) : Track.from_dict (Track.to_dict t) = t := rfl

theorem playlist_to_from_dict (p : Playlist) :
    Playlist.from_dict (Playlist.to_dict p) = p := by
  unfold Playlist.from_dict Playlist.to_dict
  simp [List.map_map, Function.comp_def, track_to_from_dict]

/-- **C2.** Serializing a Library with `save_data` and deserializing
with `load_data` reproduces exactly the same folder → playlist → track
structure: same folder names in the same order, the same playlists per
folder in order, the same tracks per playlist in order with equal
title, url, video_id and start_time. -/
theorem save_load_roundtrip (folders : List (String × List Playlist)) :
    load_data (save_data folders) = folders := by
  unfold load_data save_data
  simp [List.map_map, Function.comp_def, playlist_to_from_dict]

/-- **C8.** Deserializing a track dictionary whose `video_id` and
`start_time` keys are missing yields `video_id = ""` and
`start_time = 0`, while `title` and `url` are taken as given. -/
theorem from_dict_defaults (title url : String) :
    Track.from_dict ⟨title, url, none, none⟩ = ⟨title, url, "", 0⟩ := rfl

/-- The playback-relevant fields of `RPGSoundboard.__init__`. -/
structure AppState where
  current_playlist : Option Playlist
  current_track_index : Nat
  shuffle_mode : Bool
  shuffle_queue : List Nat
deriving DecidableEq, Repr

/-- `generate_shuffle_queue`.  `random.shuffle` is modelled by an
arbitrary reordering function `f` passed in; faithfulness to "random
permutation" is the hypothesis `∀ l, (f l).Perm l` on theorems that
need it.  When a playlist is loaded, the queue becomes `f` applied to
`list(range(len(tracks)))` and the cursor resets to 0. -/
def generate_shuffle_queue (f : List Nat → List Nat) (s : AppState) : AppState :=
  match s.current_playlist with
  | some pl =>
      { s with shuffle_queue := f (List.range pl.tracks.length),
               current_track_index := 0 }
  | none => s

/-- `toggle_shuffle`: sets `shuffle_mode` to the checkbox value; only
when that is now true and a playlist is loaded does it regenerate the
queue.  The off-branch only updates the status text. -/
def toggle_shuffle (f : List Nat → List Nat) (newMode : Bool) (s : AppState) :
    AppState :=
  let s1 := { s with shuffle_mode := newMode }
  if s1.shuffle_mode ∧ s1.current_playlist.isSome then
    generate_shuffle_queue f s1
  else s1

/-- The index-mutating part of `play_track`: after the non-empty
playlist guard, it reads the listbox selection (`sel`, as Python's
`curselection()` — `none` when nothing is selected) and, when one
exists, overwrites `current_track_index` with it before spawning the
playback thread. -/
def play_track_index (sel : Option Nat) (s : AppState) : AppState :=
  match s.current_playlist with
  | none => s
  | some pl =>
      if pl.tracks = [] then s
      else
        match sel with
        | some i => { s with current_track_index := i }
        | none => s

/-- `next_track`: no-op without a loaded non-empty playlist; otherwise
advances the cursor by one modulo the shuffle-queue length (shuffle
on) or the playlist length (shuffle off), computes
`actual_index = shuffle_queue[cursor]` when shuffling (the cursor is
in range, being a remainder mod the queue length) else the cursor
itself, sets the listbox selection to `actual_index`, and re-invokes
`play_track`, which reads that selection back into
`current_track_index`.  `none` models the Python `ZeroDivisionError`
raised by `% len(self.shuffle_queue)` when the queue is empty while
shuffling. -/
def next_track (s : AppState) : Option AppState :=
  match s.current_playlist with
  | none => some s
  | some pl =>
      if pl.tracks = [] then some s
      else if s.shuffle_mode then
        if s.shuffle_queue.length = 0 then none
        else
          let s1 := { s with current_track_index :=
            (s.current_track_index + 1) % s.shuffle_queue.length }
          let actual := s1.shuffle_queue.getD s1.current_track_index 0
          some (play_track_index (some actual) s1)
      else
        let s1 := { s with current_track_index :=
          (s.current_track_index + 1) % pl.tracks.length }
        some (play_track_index (some s1.current_track_index) s1)

/-- `'?' in url; url.split('?')[0]` inside `_add_url_thread`: the URL
truncated at its first `'?'` (the first piece of splitting at `'?'` is
the prefix of characters before the first `'?'`). -/
def cleanUrl (url : String) : String :=
  if url.data.contains '?' then String.mk (url.data.takeWhile (fun c => c != '?'))
  else url

/-- `_add_url_thread` (success path): builds a `Track` from the
metadata the extractor returns for the cleaned URL (title and id are
parameters standing for `info.get('title', ...)` / `info.get('id', ...)`),
with `start_time = 0`, and appends it to the current playlist. -/
def add_url_thread (pl : Playlist) (url title vid : String) : Playlist :=
  pl.add_track ⟨title, cleanUrl url, vid, 0⟩

/-- A three-track playlist used for concrete evaluations. -/
def plThree : Playlist :=
  ⟨"battle", [⟨"a", "ua", "ia", 0⟩, ⟨"b", "ub", "ib", 0⟩, ⟨"c", "uc", "ic", 0⟩]⟩

/-- **C1, counterexample.** On the input
`"https://youtube.com/watch?v=abc123?extra=1"`, `_add_url_thread`
stores the url `"https://youtube.com/watch"` — `url.split('?')[0]`
cuts at the FIRST `'?'` — which is not the
`"https://youtube.com/watch?v=abc123"` the claim asserts. -/
theorem add_url_stored_url_cex :
    ((add_url_thread ⟨"pl", []⟩ "https://youtube.com/watch?v=abc123?extra=1"
        "T" "abc123").tracks.map Track.url = ["https://youtube.com/watch"]) ∧
    "https://youtube.com/watch" ≠ "https://youtube.com/watch?v=abc123" := by
  exact ⟨by decide, by decide⟩

/-- **C1, amended.** `_add_url_thread` on
`"https://youtube.com/watch?v=abc123?extra=1"` appends to the playlist
a Track whose url is the input truncated at the first `'?'` — the
whole query text removed — namely `"https://youtube.com/watch"`. -/
theorem add_url_truncates_at_first_query :
    add_url_thread ⟨"pl", []⟩ "https://youtube.com/watch?v=abc123?extra=1"
        "T" "abc123" =
      ⟨"pl", [⟨"T", "https://youtube.com/watch", "abc123", 0⟩]⟩ := by
  decide

/-- **C3, counterexample.** In the state with `plThree` loaded,
shuffle on, `shuffle_queue = [2, 0, 1]` and cursor `0` (so the playing
track's real playlist index is `2`), turning shuffle off leaves
`current_track_index = 0`, which differs from the real index `2` of
the track that was playing. -/
theorem toggle_off_cursor_not_real_index :
    (toggle_shuffle id false
        ⟨some plThree, 0, true, [2, 0, 1]⟩).current_track_index ≠
      (AppState.mk (some plThree) 0 true [2, 0, 1]).shuffle_queue.getD
        (AppState.mk (some plThree) 0 true [2, 0, 1]).current_track_index 0 := by
  decide

/-- **C3, amended.** Turning shuffle off only clears `shuffle_mode`:
`current_track_index` and `shuffle_queue` keep their previous values
(the cursor stays at the shuffle-queue position, it is NOT reset to
the real playlist index of the track that was playing). -/
theorem toggle_shuffle_off_keeps_state (f : List Nat → List Nat) (s : AppState) :
    toggle_shuffle f false s = { s with shuffle_mode := false } := by
  simp [toggle_shuffle]

/-- **C4.** Whenever a playlist is loaded and `random.shuffle` behaves
as a permutation (`hf`), turning shuffle on makes `shuffle_queue` a
permutation of `0 .. n-1` for `n` the playlist length — every track
index counted exactly once — and resets the cursor to position 0. -/
theorem toggle_shuffle_on_fresh_permutation (f : List Nat → List Nat)
    (hf : ∀ l, (f l).Perm l) (s : AppState) (pl : Playlist)
    (hpl : s.current_playlist = some pl) :
    ((toggle_shuffle f true s).shuffle_queue.Perm
        (List.range pl.tracks.length) ∧
      ∀ i < pl.tracks.length,
        (toggle_shuffle f true s).shuffle_queue.count i = 1) ∧
    (toggle_shuffle f true s).current_track_index = 0 := by
  have hq : toggle_shuffle f true s =
      { s with shuffle_mode := true,
               shuffle_queue := f (List.range pl.tracks.length),
               current_track_index := 0 } := by
    simp [toggle_shuffle, generate_shuffle_queue, hpl]
  rw [hq]
  refine ⟨⟨hf _, fun i hi => ?_⟩, rfl⟩
  rw [(hf (List.range pl.tracks.length)).count_eq i]
  exact List.count_eq_one_of_mem (List.nodup_range _) (List.mem_range.mpr hi)

/-- **C4, witness**: turning shuffle on over `plThree` (with the
identity standing in for `random.shuffle`). -/
theorem toggle_shuffle_on_fresh_permutation_witness :
    ((toggle_shuffle id true ⟨some plThree, 2, false, []⟩).shuffle_queue.Perm
        (List.range plThree.tracks.length) ∧
      ∀ i < plThree.tracks.length,
        (toggle_shuffle id true
            ⟨some plThree, 2, false, []⟩).shuffle_queue.count i = 1) ∧
    (toggle_shuffle id true ⟨some plThree, 2, false, []⟩).current_track_index = 0 :=
  toggle_shuffle_on_fresh_permutation id (fun l => List.Perm.refl l) _ plThree rfl

/-- **C5, counterexample.** With `plThree` loaded, shuffle on, queue
`[2, 0, 1]` and cursor `0`, the claim predicts the cursor advances to
`(0 + 1) % 3 = 1`; but `next_track` ends by re-invoking `play_track`,
which reads the selection just set to
`actual_index = shuffle_queue[1] = 0` back into
`current_track_index`, so the program leaves the index at `0`, not
`1`. -/
theorem next_track_shuffle_cex :
    (next_track ⟨some plThree, 0, true, [2, 0, 1]⟩).map
        AppState.current_track_index = some 0 ∧
    (0 : Nat) ≠ (0 + 1) % [2, 0, 1].length := by
  exact ⟨by decide, by decide⟩

/-- **C5, amended.** With a non-empty playlist loaded (and the
shuffle queue non-empty whenever shuffle is on, else Python raises
`ZeroDivisionError`), `next_track` succeeds; with shuffle off the
cursor advances by one modulo the playlist length, while with shuffle
on the trailing `play_track()` overwrites the advanced cursor with
the selected real track index, leaving
`current_track_index = shuffle_queue[(old + 1) % len(queue)]`. -/
theorem next_track_advance (s : AppState) (pl : Playlist)
    (hpl : s.current_playlist = some pl) (hne : pl.tracks ≠ [])
    (hq : s.shuffle_mode = true → s.shuffle_queue ≠ []) :
    next_track s = some { s with current_track_index :=
      if s.shuffle_mode then
        (s.shuffle_queue.getD ((s.current_track_index + 1) % s.shuffle_queue.length) 0)
      else (s.current_track_index + 1) % pl.tracks.length } := by
  unfold next_track play_track_index
  rw [hpl]
  cases hsm : s.shuffle_mode with
  | false => simp [hne, hsm]
  | true =>
      have hlen : s.shuffle_queue.length ≠ 0 := by
        intro h0
        exact hq hsm (List.eq_nil_of_length_eq_zero h0)
      simp [hne, hsm, hlen]

/-- **C5, witness**: on a playlist of length 3, shuffle off, at index
2, `next_track` wraps the cursor to index 0. -/
theorem next_track_advance_witness :
    next_track ⟨some plThree, 2, false, []⟩ =
      some ⟨some plThree, 0, false, []⟩ := by
  have h := next_track_advance ⟨some plThree, 2, false, []⟩ plThree rfl
    (by decide) (fun hcontra => nomatch hcontra)
  simpa using h

/-- `move_track_down` on the selected index: swaps `tracks[idx]` with
`tracks[idx+1]` unless `idx >= len(tracks) - 1`, in which case it does
nothing; the second component is the list selection afterwards
(`selection_set(idx+1)` after a swap, the unchanged `idx` otherwise). -/
def move_track_down (tracks : List Track) (idx : Nat) : List Track × Nat :=
  if tracks.length - 1 ≤ idx then (tracks, idx)
  else ((tracks.set idx (tracks.getD (idx + 1) default)).set (idx + 1)
          (tracks.getD idx default), idx + 1)

/-- `move_track_up`: swaps `tracks[idx]` with `tracks[idx-1]` unless
`idx == 0`; the second component is the selection afterwards. -/
def move_track_up (tracks : List Track) (idx : Nat) : List Track × Nat :=
  if idx = 0 then (tracks, idx)
  else ((tracks.set idx (tracks.getD (idx - 1) default)).set (idx - 1)
          (tracks.getD idx default), idx - 1)

/-- **C6.** With at least two tracks: moving the first track down and
then moving it (at its new selection) back up restores the original
order; and moving the last track down leaves any track list
unchanged. -/
theorem move_down_up_and_last_noop (tracks t : List Track)
    (h2 : 2 ≤ tracks.length) :
    (move_track_up (move_track_down tracks 0).1
        (move_track_down tracks 0).2).1 = tracks ∧
    (move_track_down t (t.length - 1)).1 = t := by
  constructor
  · cases tracks with
    | nil => simp at h2
    | cons a t' =>
        cases t' with
        | nil => simp at h2
        | cons b rest => simp [move_track_down, move_track_up]
  · simp [move_track_down]

/-- **C6, witness**: the concrete three-track playlist. -/
theorem move_down_up_and_last_noop_witness :
    (move_track_up (move_track_down plThree.tracks 0).1
        (move_track_down plThree.tracks 0).2).1 = plThree.tracks ∧
    (move_track_down plThree.tracks (plThree.tracks.length - 1)).1 =
      plThree.tracks :=
  move_down_up_and_last_noop plThree.tracks plThree.tracks (by decide)

/-- **C9.** `remove_track` removes exactly the element at `index` when
`0 <= index < len(tracks)` (keeping the name) and is a total no-op at
every other index — no exception, the playlist is returned intact. -/
theorem remove_track_spec (p : Playlist) (i : Int) :
    (0 ≤ i → i < p.tracks.length →
      (p.remove_track i).tracks =
        p.tracks.take i.toNat ++ p.tracks.drop (i.toNat + 1) ∧
      (p.remove_track i).name = p.name) ∧
    (¬ (0 ≤ i ∧ i < p.tracks.length) → p.remove_track i = p) := by
  constructor
  · intro h0 hlt
    unfold Playlist.remove_track
    rw [if_pos ⟨h0, hlt⟩]
    exact ⟨List.eraseIdx_eq_take_drop_succ .., rfl⟩
  · intro h
    unfold Playlist.remove_track
    rw [if_neg h]

/-- **C9, witness**: removing index 1 from `plThree` drops exactly the
middle track; index 5 and index -1 leave it unchanged. -/
theorem remove_track_spec_witness :
    ((plThree.remove_track 1).tracks =
        plThree.tracks.take 1 ++ plThree.tracks.drop 2 ∧
      (plThree.remove_track 1).name = plThree.name) ∧
    plThree.remove_track 5 = plThree ∧
    plThree.remove_track (-1) = plThree :=
  ⟨(remove_track_spec plThree 1).1 (by decide) (by decide),
   (remove_track_spec plThree 5).2 (by decide),
   (remove_track_spec plThree (-1)).2 (by decide)⟩

/-- Python `str.strip()` applied to the playlist-name entry, modelled
on the character list: leading and trailing whitespace removed. -/
def pyStrip (s : String) : String :=
  String.mk (((s.data.dropWhile Char.isWhitespace).reverse.dropWhile
      Char.isWhitespace).reverse)

/-- What the `create()` handler inside `create_playlist` does, beyond
the Library mutation: which warning dialog (if any) it shows. -/
inductive CreateOutcome where
  | warnedEmptyName
  | warnedDuplicate
  | silentNoop
  | created
deriving DecidableEq, Repr

/-- `folder in self.folders` / `self.folders[folder]` on the
insertion-ordered dict. -/
def lookupFolder (folders : List (String × List Playlist))
    (folder : String) : Option (List Playlist) :=
  match folders with
  | [] => none
  | e :: rest => if e.1 = folder then some e.2 else lookupFolder rest folder

/-- `self.folders[folder].append(playlist)`: the in-place append seen
as replacing the folder's playlist list (dict keys are unique). -/
def setFolder (folders : List (String × List Playlist)) (folder : String)
    (ps : List Playlist) : List (String × List Playlist) :=
  folders.map fun e => if e.1 = folder then (e.1, ps) else e

/-- The `create()` handler of `create_playlist`: strips the name; an
empty result warns and changes nothing; then `if folder and folder in
self.folders:` — a falsy (empty) or unknown folder falls through
SILENTLY with no change; a duplicate name in the folder warns and
changes nothing; otherwise an empty playlist with the stripped name is
appended to the folder. -/
def create_playlist (folders : List (String × List Playlist))
    (folder rawName : String) :
    CreateOutcome × List (String × List Playlist) :=
  let name := pyStrip rawName
  if name = "" then (.warnedEmptyName, folders)
  else if folder = "" then (.silentNoop, folders)
  else
    match lookupFolder folders folder with
    | none => (.silentNoop, folders)
    | some ps =>
        if name ∈ ps.map Playlist.name then (.warnedDuplicate, folders)
        else (.created, setFolder folders folder (ps ++ [⟨name, []⟩]))

/-- **C7, counterexample.** With library `[("A", [])]`, asking for a
playlist `"x"` in the unknown folder `"B"` leaves the library
unchanged but shows NO user-visible warning (the code falls through
`if folder and folder in self.folders:` silently), contradicting the
claim that an unknown folder fails with a warning. -/
theorem create_playlist_unknown_folder_cex :
    create_playlist [("A", [])] "B" "x" =
      (CreateOutcome.silentNoop, [("A", [])]) ∧
    CreateOutcome.silentNoop ≠ CreateOutcome.warnedEmptyName ∧
    CreateOutcome.silentNoop ≠ CreateOutcome.warnedDuplicate := by
  exact ⟨by decide, by decide, by decide⟩

/-- **C7, amended.** `create_playlist`: an empty (stripped) name warns
with no change; an unknown (or empty) folder is a SILENT no-op with no
change and no warning; a name already present in the folder warns with
no change; otherwise it succeeds, appending a new empty playlist with
that name to the folder. -/
theorem create_playlist_cases (folders : List (String × List Playlist))
    (folder rawName : String) :
    (pyStrip rawName = "" →
      create_playlist folders folder rawName =
        (CreateOutcome.warnedEmptyName, folders)) ∧
    (pyStrip rawName ≠ "" →
      (folder = "" ∨ lookupFolder folders folder = none) →
      create_playlist folders folder rawName =
        (CreateOutcome.silentNoop, folders)) ∧
    (∀ ps, pyStrip rawName ≠ "" → folder ≠ "" →
      lookupFolder folders folder = some ps →
      pyStrip rawName ∈ ps.map Playlist.name →
      create_playlist folders folder rawName =
        (CreateOutcome.warnedDuplicate, folders)) ∧
    (∀ ps, pyStrip rawName ≠ "" → folder ≠ "" →
      lookupFolder folders folder = some ps →
      pyStrip rawName ∉ ps.map Playlist.name →
      create_playlist folders folder rawName =
        (CreateOutcome.created,
          setFolder folders folder (ps ++ [⟨pyStrip rawName, []⟩]))) := by
  refine ⟨fun he => ?_, fun hne hor => ?_, fun ps hne hf hl hdup => ?_,
    fun ps hne hf hl hnodup => ?_⟩
  · simp [create_playlist, he]
  · rcases hor with hf | hl
    · simp [create_playlist, hne, hf]
    · by_cases hf : folder = ""
      · simp [create_playlist, hne, hf]
      · simp [create_playlist, hne, hf, hl]
  · simp [create_playlist, hne, hf, hl, hdup]
  · simp [create_playlist, hne, hf, hl, hnodup]

/-- **C7, witness**: creating `" p "` (strips to `"p"`) in the known
folder `"A"` that already holds a playlist `"old"` appends the new
empty playlist `"p"`. -/
theorem create_playlist_cases_witness :
    create_playlist [("A", [⟨"old", []⟩])] "A" " p " =
      (CreateOutcome.created, [("A", [⟨"old", []⟩, ⟨"p", []⟩])]) := by
  have h := (create_playlist_cases [("A", [⟨"old", []⟩])] "A" " p ").2.2.2
    [⟨"old", []⟩] (by decide) (by decide) (by decide) (by decide)
  rw [h]
  decide

/-- The duplicate-removal loop of `_get_spotify_tracks_embed`: keeps
the first occurrence of each exact `name|artist` key, tracking the
`seen` set as a list of keys. -/
def dedupTracks : List (String × String) → List String → List (String × String)
  | [], _ => []
  | t :: rest, seen =>
      let key := t.1 ++ "|" ++ t.2
      if key ∈ seen then dedupTracks rest seen
      else t :: dedupTracks rest (key :: seen)

/-- `_get_spotify_tracks_embed` after the HTTP fetch: the regex
`re.finditer` over the page text is abstracted as the list of raw
`(name, artist)` matches it yields; the function dedupes them and
returns `unique_tracks[:50]`. -/
def get_spotify_tracks_embed (rawMatches : List (String × String)) :
    List (String × String) :=
  (dedupTracks rawMatches []).take 50

/-- **C10.** For every list of raw matches the embed-page scrape can
extract — hence for every fetched page content — the fallback returns
at most 50 track entries. -/
theorem embed_scrape_at_most_50 (rawMatches : List (String × String)) :
    (get_spotify_tracks_embed rawMatches).length ≤ 50 := by
  unfold get_spotify_tracks_embed
  rw [List.length_take]
  exact Nat.min_le_left _ _
